import Mathlib

/-!
Verification of the distance computation, map-data assembly and daily order
aggregation pipeline of the "Restaurant wise Delivery Points" dashboard
(`main.py`).  The Python source is shallowly embedded: the vectorized
haversine computation over `numpy` floats becomes a function over `ℝ`,
tabular records become explicit structures with rational coordinates, and
the dataframe column selections, renames and group-bys become list
operations that preserve the source's row order.
-/

namespace RestaurantDelivery

open Real

/-! ## Geo-distance calculator (source lines 59-77) -/

/-- Degree-to-radian conversion, `np.radians`. -/
noncomputable def radians (x : ℝ) : ℝ := x * π / 180

/-- Two-argument arctangent as computed by `np.arctan2(y, x)`:
quadrant-aware arctangent of `y / x`. -/
noncomputable def arctan2 (y x : ℝ) : ℝ :=
  if 0 < x then arctan (y / x)
  else if x < 0 then
    (if 0 ≤ y then arctan (y / x) + π else arctan (y / x) - π)
  else if 0 < y then π / 2
  else if y < 0 then -(π / 2)
  else 0

/-- The intermediate `a` of the haversine formula in `haversine_vectorized`:
`sin²(dlat/2) + cos(lat1)·cos(lat2)·sin²(dlon/2)`, all four inputs first
converted from degrees to radians. -/
noncomputable def hav_a (lat1 lon1 lat2 lon2 : ℝ) : ℝ :=
  sin ((radians lat2 - radians lat1) / 2) ^ 2 +
    cos (radians lat1) * cos (radians lat2) *
      sin ((radians lon2 - radians lon1) / 2) ^ 2

/-- One haversine great-circle distance, Earth radius `R = 6371.0` km:
`R * c` with `c = 2 * arctan2(sqrt a, sqrt (1 - a))`. -/
noncomputable def haversine (lat1 lon1 lat2 lon2 : ℝ) : ℝ :=
  6371.0 * (2 * arctan2 (Real.sqrt (hav_a lat1 lon1 lat2 lon2))
    (Real.sqrt (1 - hav_a lat1 lon1 lat2 lon2)))

/-- The vectorized haversine computation: elementwise over four parallel
coordinate sequences. -/
noncomputable def haversine_vectorized (lat1s lon1s lat2s lon2s : List ℝ) : List ℝ :=
  List.zipWith (fun p q => haversine p.1 p.2 q.1 q.2)
    (List.zipWith Prod.mk lat1s lon1s) (List.zipWith Prod.mk lat2s lon2s)

/-- Rounding to two decimal places, `.round(2)`. -/
noncomputable def round2 (x : ℝ) : ℝ := ((round (100 * x) : ℤ) : ℝ) / 100

/-- The `distance_km` column: the vectorized haversine output rounded to two
decimals. -/
noncomputable def distance_km_list (lat1s lon1s lat2s lon2s : List ℝ) : List ℝ :=
  (haversine_vectorized lat1s lon1s lat2s lon2s).map round2

/-! ## Data model: joined records and the filter (source lines 12-54) -/

/-- One row of the merged dataframe: an order joined with its restaurant.
Coordinates are the exact rational values of the row. -/
structure JoinedRecord where
  OrderId : Nat
  order_date : String
  DeliveryLat : ℚ
  DeliveryLong : ℚ
  Name : String
  ZoneName : String
  primaryrestautantname : String
  Latitude : ℚ
  Longitude : ℚ
deriving DecidableEq

/-- The zone+restaurant selection, `df[(df["ZoneName"] == selected_zone) &
(df["primaryrestautantname"] == selected_restaurant)]`. -/
def filtered_df (df : List JoinedRecord) (zone rest : String) : List JoinedRecord :=
  df.filter (fun r => r.ZoneName == zone && r.primaryrestautantname == rest)

/-- The restaurant name options offered for a zone: the distinct
`primaryrestautantname` values of the zone's rows, sorted. -/
def restaurants_in_zone (df : List JoinedRecord) (zone : String) : List String :=
  List.insertionSort (· ≤ ·)
    (((df.filter (fun r => r.ZoneName == zone)).map
      (fun r => r.primaryrestautantname)).dedup)

/-- A filtered row together with its computed `distance_km` column. -/
structure AnnotatedRecord where
  base : JoinedRecord
  distance_km : ℝ

/-- Populating the `distance_km` column: the rounded haversine distance from
the restaurant coordinate to the delivery coordinate, row by row. -/
noncomputable def annotate (rs : List JoinedRecord) : List AnnotatedRecord :=
  rs.map (fun r => ⟨r, round2 (haversine (r.Latitude : ℝ) (r.Longitude : ℝ)
    (r.DeliveryLat : ℝ) (r.DeliveryLong : ℝ))⟩)

/-! ## Delivery-network assembler (source lines 83-117 and 166-167) -/

/-- One row of `restaurant_data` after the column selection and rename. -/
structure RestaurantNode where
  lat : ℚ
  lon : ℚ
  restaurant_name : String
  ZoneName : String
deriving DecidableEq

/-- One row of `delivery_data` after the column selection and rename. -/
structure DeliveryNode where
  lat : ℚ
  lon : ℚ
  order_id : Nat
  order_date : String
  distance_km : ℝ

/-- The `restaurant_data` dataframe: one row per filtered record, keeping
the restaurant columns.  The source applies no deduplication. -/
def restaurant_data (rs : List AnnotatedRecord) : List RestaurantNode :=
  rs.map (fun r => ⟨r.base.Latitude, r.base.Longitude, r.base.Name, r.base.ZoneName⟩)

/-- The `delivery_data` dataframe: one row per filtered record, keeping the
delivery columns, order id, order date and computed distance. -/
def delivery_data (rs : List AnnotatedRecord) : List DeliveryNode :=
  rs.map (fun r => ⟨r.base.DeliveryLat, r.base.DeliveryLong, r.base.OrderId,
    r.base.order_date, r.distance_km⟩)

/-- The flattening performed by the row loop building the edge trace: for
each record a start coordinate, an end coordinate, then a `None` separator. -/
def edgeFlat (f g : AnnotatedRecord → ℚ) : List AnnotatedRecord → List (Option ℚ)
  | [] => []
  | r :: rs => some (f r) :: some (g r) :: none :: edgeFlat f g rs

/-- The flattened `edge_lat` list: per record the restaurant latitude, the
delivery latitude, then a `None` separator. -/
def edge_lat : List AnnotatedRecord → List (Option ℚ) :=
  edgeFlat (fun r => r.base.Latitude) (fun r => r.base.DeliveryLat)

/-- The flattened `edge_lon` list: per record the restaurant longitude, the
delivery longitude, then a `None` separator. -/
def edge_lon : List AnnotatedRecord → List (Option ℚ) :=
  edgeFlat (fun r => r.base.Longitude) (fun r => r.base.DeliveryLong)

/-- The map center latitude, `restaurant_data["lat"].mean()`. -/
def center_lat (rs : List AnnotatedRecord) : ℚ :=
  ((restaurant_data rs).map RestaurantNode.lat).sum / ((restaurant_data rs).length : ℚ)

/-- The map center longitude, `restaurant_data["lon"].mean()`. -/
def center_lon (rs : List AnnotatedRecord) : ℚ :=
  ((restaurant_data rs).map RestaurantNode.lon).sum / ((restaurant_data rs).length : ℚ)

/-- Modelled from the spec: the deduplicated restaurant node set, one entry
per distinct (latitude, longitude, name) triple present in the records.
The source has no counterpart of this deduplication. -/
def restaurant_nodes_spec (rs : List AnnotatedRecord) : List (ℚ × ℚ × String) :=
  (rs.map (fun r => (r.base.Latitude, r.base.Longitude, r.base.Name))).dedup

/-- Modelled from the spec: the center latitude as the arithmetic mean over
the deduplicated restaurant node set. -/
def center_lat_spec (rs : List AnnotatedRecord) : ℚ :=
  ((restaurant_nodes_spec rs).map (fun t => t.1)).sum /
    ((restaurant_nodes_spec rs).length : ℚ)

/-! ## Order-trend aggregator (source lines 186-201) -/

/-- The calendar dates of the records whose `order_date` the coercion
`pd.to_datetime(..., errors="coerce")` parses.  A parse result is a pair of
a calendar date (encoded as an integer) and a time of day; `.dt.date` keeps
the calendar date, and unparseable rows (`NaT`) are dropped, exactly as a
pandas `groupby` drops null keys. -/
def parsedDates (parse : String → Option (Int × Nat)) (rs : List AnnotatedRecord) :
    List Int :=
  rs.filterMap (fun r => (parse r.base.order_date).map Prod.fst)

/-- The `daily_orders` table: one `(calendar_date, count)` row per distinct
parseable date, keys sorted ascending as `groupby` sorts them. -/
def daily_orders (parse : String → Option (Int × Nat)) (rs : List AnnotatedRecord) :
    List (Int × Nat) :=
  (List.insertionSort (· ≤ ·) (parsedDates parse rs).dedup).map
    (fun d => (d, (parsedDates parse rs).count d))

/-- The `avg_daily_orders` statistic: the mean of the `orders` column when
the table is non-empty, and `0` otherwise. -/
def avg_daily_orders (parse : String → Option (Int × Nat))
    (rs : List AnnotatedRecord) : ℚ :=
  if (daily_orders parse rs).isEmpty then 0
  else ((daily_orders parse rs).map (fun p => (p.2 : ℚ))).sum /
    ((daily_orders parse rs).length : ℚ)

/-! ## The "Show Relation" branch (source lines 44-221) -/

/-- What the button handler renders: either the no-data warning alone, or
the assembled map and trend structures. -/
inductive RelationView where
  | warning (msg : String)
  | rendered (restNodes : List RestaurantNode) (delivNodes : List DeliveryNode)
      (eLat eLon : List (Option ℚ)) (centerLat centerLon : ℚ)
      (trend : List (Int × Nat)) (avgDaily : ℚ)

/-- The body of the "Show Relation" handler: filter, then either warn on an
empty result or compute distances, assemble the network and aggregate the
trend. -/
noncomputable def show_relation (parse : String → Option (Int × Nat))
    (df : List JoinedRecord) (zone rest : String) : RelationView :=
  if (filtered_df df zone rest).isEmpty then
    .warning "No data available for the selected filters."
  else
    .rendered (restaurant_data (annotate (filtered_df df zone rest)))
      (delivery_data (annotate (filtered_df df zone rest)))
      (edge_lat (annotate (filtered_df df zone rest)))
      (edge_lon (annotate (filtered_df df zone rest)))
      (center_lat (annotate (filtered_df df zone rest)))
      (center_lon (annotate (filtered_df df zone rest)))
      (daily_orders parse (annotate (filtered_df df zone rest)))
      (avg_daily_orders parse (annotate (filtered_df df zone rest)))

/-! ## Concrete inputs used to instantiate the claims -/

/-- A parse function for the concrete scenarios: the two January 2024 dates
parse (dates encoded as `yyyymmdd` integers, with a time of day), everything
else is malformed. -/
def exParse : String → Option (Int × Nat) := fun s =>
  if s = "2024-01-01" then some (20240101, 540)
  else if s = "2024-01-02" then some (20240102, 780)
  else none

/-- Three joined records sharing one restaurant coordinate and name. -/
def exShared : List JoinedRecord :=
  [⟨1, "2024-01-01", 10, 11, "R", "Z", "R", 5, 6⟩,
   ⟨2, "2024-01-01", 12, 13, "R", "Z", "R", 5, 6⟩,
   ⟨3, "2024-01-02", 14, 15, "R", "Z", "R", 5, 6⟩]

/-- The three shared-restaurant records with a `distance_km` column. -/
def exC1 : List AnnotatedRecord :=
  [⟨⟨1, "2024-01-01", 10, 11, "R", "Z", "R", 5, 6⟩, 1⟩,
   ⟨⟨2, "2024-01-01", 12, 13, "R", "Z", "R", 5, 6⟩, 2⟩,
   ⟨⟨3, "2024-01-02", 14, 15, "R", "Z", "R", 5, 6⟩, 3⟩]

/-- Records of two distinct restaurants with unequal multiplicities: the
restaurant at latitude 0 appears twice, the one at latitude 3 once. -/
def exC2 : List AnnotatedRecord :=
  [⟨⟨1, "2024-01-01", 10, 11, "A", "Z", "A", 0, 0⟩, 1⟩,
   ⟨⟨2, "2024-01-01", 12, 13, "A", "Z", "A", 0, 0⟩, 2⟩,
   ⟨⟨3, "2024-01-02", 14, 15, "B", "Z", "B", 3, 0⟩, 3⟩]

/-- Records whose only order date is malformed. -/
def exBadDates : List AnnotatedRecord :=
  [⟨⟨7, "not-a-date", 10, 11, "R", "Z", "R", 5, 6⟩, 1⟩]

/-- A one-record dataset in zone "Z" with restaurant name "R". -/
def exDf : List JoinedRecord :=
  [⟨1, "2024-01-01", 10, 11, "R", "Z", "R", 5, 6⟩]

/-! ## List helper lemmas -/

theorem toFinset_dedup_list {α : Type} [DecidableEq α] (l : List α) :
    l.dedup.toFinset = l.toFinset := by
  ext a
  simp [List.mem_toFinset, List.mem_dedup]

theorem sum_count_dedup {α : Type} [DecidableEq α] (l : List α) :
    (l.dedup.map (fun d => l.count d)).sum = l.length := by
  have h1 : l.dedup.toFinset.sum (fun d => l.count d) =
      (l.dedup.map (fun d => l.count d)).sum :=
    List.sum_toFinset _ (List.nodup_dedup l)
  rw [← h1, toFinset_dedup_list, List.sum_toFinset_count_eq_length]

theorem zipWith_getElem? {α β γ : Type} (f : α → β → γ) :
    ∀ (as : List α) (bs : List β) (i : Nat) (a : α) (b : β),
      as[i]? = some a → bs[i]? = some b → (List.zipWith f as bs)[i]? = some (f a b)
  | [], _, i, _, _, ha, _ => by simp at ha
  | _ :: _, [], i, _, _, _, hb => by simp at hb
  | x :: xs, y :: ys, 0, a, b, ha, hb => by
    simp only [List.getElem?_cons_zero, Option.some.injEq] at ha hb
    simp [List.zipWith, ha, hb]
  | x :: xs, y :: ys, i + 1, a, b, ha, hb => by
    simp only [List.getElem?_cons_succ] at ha hb
    simpa [List.zipWith] using zipWith_getElem? f xs ys i a b ha hb

theorem edgeFlat_length (f g : AnnotatedRecord → ℚ) (rs : List AnnotatedRecord) :
    (edgeFlat f g rs).length = 3 * rs.length := by
  induction rs with
  | nil => simp [edgeFlat]
  | cons r t ih =>
    simp only [edgeFlat, List.length_cons, ih]
    omega

theorem edgeFlat_getElem? (f g : AnnotatedRecord → ℚ) :
    ∀ (rs : List AnnotatedRecord) (i : Nat) (r : AnnotatedRecord), rs[i]? = some r →
      (edgeFlat f g rs)[3 * i]? = some (some (f r)) ∧
      (edgeFlat f g rs)[3 * i + 1]? = some (some (g r)) ∧
      (edgeFlat f g rs)[3 * i + 2]? = some none
  | [], i, r, h => by simp at h
  | a :: t, 0, r, h => by
    simp only [List.getElem?_cons_zero, Option.some.injEq] at h
    subst h
    have hs : edgeFlat f g (a :: t) = some (f a) :: some (g a) :: none :: edgeFlat f g t := rfl
    refine ⟨?_, ?_, ?_⟩
    · rw [hs, show 3 * 0 = 0 from rfl]
      exact List.getElem?_cons_zero
    · rw [hs, show (3 * 0 + 1 : Nat) = 0 + 1 from rfl, List.getElem?_cons_succ]
      exact List.getElem?_cons_zero
    · rw [hs, show (3 * 0 + 2 : Nat) = 0 + 1 + 1 from rfl, List.getElem?_cons_succ,
        List.getElem?_cons_succ]
      exact List.getElem?_cons_zero
  | a :: t, i + 1, r, h => by
    simp only [List.getElem?_cons_succ] at h
    obtain ⟨ih0, ih1, ih2⟩ := edgeFlat_getElem? f g t i r h
    have hs : edgeFlat f g (a :: t) = some (f a) :: some (g a) :: none :: edgeFlat f g t := rfl
    refine ⟨?_, ?_, ?_⟩
    · rw [hs, show 3 * (i + 1) = 3 * i + 1 + 1 + 1 by ring]
      simp only [List.getElem?_cons_succ]
      exact ih0
    · rw [hs, show 3 * (i + 1) + 1 = 3 * i + 1 + 1 + 1 + 1 by ring]
      simp only [List.getElem?_cons_succ]
      exact ih1
    · rw [hs, show 3 * (i + 1) + 2 = 3 * i + 2 + 1 + 1 + 1 by ring]
      simp only [List.getElem?_cons_succ]
      exact ih2

/-! ## Basic facts about the haversine formula -/

theorem sin_sq_sub_symm (u v : ℝ) : sin ((u - v) / 2) ^ 2 = sin ((v - u) / 2) ^ 2 := by
  rw [show (u - v) / 2 = -((v - u) / 2) by ring, Real.sin_neg, neg_sq]

theorem hav_a_symm (lat1 lon1 lat2 lon2 : ℝ) :
    hav_a lat1 lon1 lat2 lon2 = hav_a lat2 lon2 lat1 lon1 := by
  unfold hav_a
  rw [sin_sq_sub_symm (radians lat2) (radians lat1),
    sin_sq_sub_symm (radians lon2) (radians lon1),
    mul_comm (cos (radians lat1)) (cos (radians lat2))]

theorem arctan_nonneg_of_nonneg {x : ℝ} (h : 0 ≤ x) : 0 ≤ arctan x := by
  have h0 : arctan 0 ≤ arctan x := Real.arctan_strictMono.monotone h
  simpa [Real.arctan_zero] using h0

theorem arctan2_nonneg_le_half_pi {y x : ℝ} (hy : 0 ≤ y) (hx : 0 ≤ x) :
    0 ≤ arctan2 y x ∧ arctan2 y x ≤ π / 2 := by
  unfold arctan2
  split_ifs with h1 h2 h3 h4
  · have hq : 0 ≤ y / x := div_nonneg hy (le_of_lt h1)
    exact ⟨arctan_nonneg_of_nonneg hq, le_of_lt (Real.arctan_lt_pi_div_two _)⟩
  · exact absurd h2 (not_lt.mpr hx)
  · exact ⟨by positivity, le_refl _⟩
  · exact absurd h4 (not_lt.mpr hy)
  · exact ⟨le_refl 0, by positivity⟩

theorem cos_radians_nonneg {x : ℝ} (h1 : -90 ≤ x) (h2 : x ≤ 90) :
    0 ≤ cos (radians x) := by
  apply Real.cos_nonneg_of_mem_Icc
  constructor
  · show -(π / 2) ≤ x * π / 180
    nlinarith [Real.pi_pos]
  · show x * π / 180 ≤ π / 2
    nlinarith [Real.pi_pos]

theorem hav_a_nonneg {lat1 lon1 lat2 lon2 : ℝ}
    (h1 : -90 ≤ lat1) (h2 : lat1 ≤ 90) (h3 : -90 ≤ lat2) (h4 : lat2 ≤ 90) :
    0 ≤ hav_a lat1 lon1 lat2 lon2 := by
  have c1 := cos_radians_nonneg h1 h2
  have c2 := cos_radians_nonneg h3 h4
  unfold hav_a
  have hs1 : (0:ℝ) ≤ sin ((radians lat2 - radians lat1) / 2) ^ 2 := sq_nonneg _
  have hs2 : (0:ℝ) ≤ sin ((radians lon2 - radians lon1) / 2) ^ 2 := sq_nonneg _
  nlinarith [mul_nonneg c1 c2]

theorem hav_a_le_one {lat1 lon1 lat2 lon2 : ℝ}
    (h1 : -90 ≤ lat1) (h2 : lat1 ≤ 90) (h3 : -90 ≤ lat2) (h4 : lat2 ≤ 90) :
    hav_a lat1 lon1 lat2 lon2 ≤ 1 := by
  have c1 := cos_radians_nonneg h1 h2
  have c2 := cos_radians_nonneg h3 h4
  unfold hav_a
  have hs2 : sin ((radians lon2 - radians lon1) / 2) ^ 2 ≤ 1 := Real.sin_sq_le_one _
  have hs2' : (0:ℝ) ≤ sin ((radians lon2 - radians lon1) / 2) ^ 2 := sq_nonneg _
  have hhalf : sin ((radians lat2 - radians lat1) / 2) ^ 2 =
      1 - cos ((radians lat2 - radians lat1) / 2) ^ 2 := by
    have := Real.sin_sq_add_cos_sq ((radians lat2 - radians lat1) / 2)
    linarith
  have hdbl : cos (radians lat2 - radians lat1) =
      2 * cos ((radians lat2 - radians lat1) / 2) ^ 2 - 1 := by
    have := Real.cos_sq ((radians lat2 - radians lat1) / 2)
    have harg : 2 * ((radians lat2 - radians lat1) / 2) = radians lat2 - radians lat1 := by
      ring
    rw [harg] at this
    linarith
  have hsub : cos (radians lat2 - radians lat1) =
      cos (radians lat2) * cos (radians lat1) + sin (radians lat2) * sin (radians lat1) :=
    Real.cos_sub _ _
  have hadd : cos (radians lat1 + radians lat2) =
      cos (radians lat1) * cos (radians lat2) - sin (radians lat1) * sin (radians lat2) :=
    Real.cos_add _ _
  have hub : cos (radians lat1 + radians lat2) ≤ 1 := Real.cos_le_one _
  have hmul : cos (radians lat1) * cos (radians lat2) *
      sin ((radians lon2 - radians lon1) / 2) ^ 2 ≤ cos (radians lat1) * cos (radians lat2) := by
    nlinarith [mul_nonneg c1 c2]
  nlinarith [mul_nonneg c1 c2]

theorem haversine_range {lat1 lon1 lat2 lon2 : ℝ}
    (h1 : -90 ≤ lat1) (h2 : lat1 ≤ 90) (h3 : -90 ≤ lat2) (h4 : lat2 ≤ 90) :
    0 ≤ haversine lat1 lon1 lat2 lon2 ∧ haversine lat1 lon1 lat2 lon2 ≤ π * 6371.0 := by
  have ha0 := @hav_a_nonneg lat1 lon1 lat2 lon2 h1 h2 h3 h4
  unfold haversine
  have hy : 0 ≤ Real.sqrt (hav_a lat1 lon1 lat2 lon2) := Real.sqrt_nonneg _
  have hx : 0 ≤ Real.sqrt (1 - hav_a lat1 lon1 lat2 lon2) := Real.sqrt_nonneg _
  obtain ⟨hl, hu⟩ := arctan2_nonneg_le_half_pi hy hx
  constructor
  · nlinarith
  · nlinarith

theorem round2_nonneg {x : ℝ} (h : 0 ≤ x) : 0 ≤ round2 x := by
  unfold round2
  have h1 : (0:ℤ) ≤ round (100 * x) := by
    rw [round_eq]
    apply Int.floor_nonneg.mpr
    linarith
  have h2 : (0:ℝ) ≤ ((round (100 * x) : ℤ) : ℝ) := by exact_mod_cast h1
  linarith

theorem arctan2_of_pos {y x : ℝ} (hx : 0 < x) : arctan2 y x = arctan (y / x) := by
  unfold arctan2
  rw [if_pos hx]

theorem haversine_equator_one_degree : haversine 0 0 0 1 = 6371 * (π / 180) := by
  have hθ2 : π / 360 < π / 2 := by nlinarith [Real.pi_pos]
  have hsin : 0 ≤ sin (π / 360) :=
    Real.sin_nonneg_of_nonneg_of_le_pi (by positivity) (by nlinarith [Real.pi_pos])
  have hcos : 0 < cos (π / 360) :=
    Real.cos_pos_of_mem_Ioo ⟨by nlinarith [Real.pi_pos], hθ2⟩
  have ha : hav_a 0 0 0 1 = sin (π / 360) ^ 2 := by
    unfold hav_a radians
    have harg : ((1:ℝ) * π / 180 - 0 * π / 180) / 2 = π / 360 := by ring
    rw [harg]
    norm_num
  unfold haversine
  rw [ha, Real.sqrt_sq hsin]
  have h1a : 1 - sin (π / 360) ^ 2 = cos (π / 360) ^ 2 := by
    have := Real.sin_sq_add_cos_sq (π / 360)
    linarith
  rw [h1a, Real.sqrt_sq (le_of_lt hcos), arctan2_of_pos hcos,
    (Real.tan_eq_sin_div_cos _).symm,
    Real.arctan_tan (by nlinarith [Real.pi_pos]) hθ2]
  ring

theorem round2_haversine_equator : round2 (haversine 0 0 0 1) = 111.19 := by
  rw [haversine_equator_one_degree]
  unfold round2
  have hr : round ((100:ℝ) * (6371 * (π / 180))) = 11119 := by
    rw [round_eq]
    have hlow : (3.141592:ℝ) < π := Real.pi_gt_d6
    have hhigh : π < (3.141593:ℝ) := Real.pi_lt_d6
    have h1 : ((11119:ℤ):ℝ) ≤ 100 * (6371 * (π / 180)) + 1 / 2 := by
      push_cast
      nlinarith
    have h2 : 100 * (6371 * (π / 180)) + 1 / 2 < 11119 + 1 := by
      nlinarith
    rw [Int.floor_eq_iff]
    constructor
    · exact h1
    · push_cast at h2 ⊢
      linarith
  rw [hr]
  norm_num

/-- C8: the distance computation is symmetric: swapping origin and
destination leaves the haversine distance unchanged. -/
theorem haversine_symm (lat1 lon1 lat2 lon2 : ℝ) :
    haversine lat1 lon1 lat2 lon2 = haversine lat2 lon2 lat1 lon1 := by
  unfold haversine
  rw [hav_a_symm lat1 lon1 lat2 lon2]

/-- C3: for parallel coordinate sequences of equal length N (degrees), the
distance computation returns N values, the i-th being the haversine
great-circle distance (Earth radius 6371.0 km) of the i-th coordinate pair
rounded to 2 decimal places; for origin (0,0) and destination (0,1) the
result is 111.19 km. -/
theorem C3_distance_computation (lat1s lon1s lat2s lon2s : List ℝ) (N : Nat)
    (h1 : lat1s.length = N) (h2 : lon1s.length = N)
    (h3 : lat2s.length = N) (h4 : lon2s.length = N) :
    (distance_km_list lat1s lon1s lat2s lon2s).length = N ∧
    (∀ (i : Nat) (a b c d : ℝ), lat1s[i]? = some a → lon1s[i]? = some b →
      lat2s[i]? = some c → lon2s[i]? = some d →
      (distance_km_list lat1s lon1s lat2s lon2s)[i]? =
        some (round2 (haversine a b c d))) ∧
    round2 (haversine 0 0 0 1) = 111.19 := by
  refine ⟨?_, ?_, round2_haversine_equator⟩
  · unfold distance_km_list haversine_vectorized
    simp [h1, h2, h3, h4]
  · intro i a b c d ha hb hc hd
    unfold distance_km_list haversine_vectorized
    rw [List.getElem?_map,
      zipWith_getElem? _ _ _ i (a, b) (c, d)
        (zipWith_getElem? Prod.mk _ _ i a b ha hb)
        (zipWith_getElem? Prod.mk _ _ i c d hc hd)]
    rfl

/-- C3 witness: the singleton instance, origin (0,0) and destination (0,1),
evaluates to one value, 111.19 km. -/
theorem C3_witness :
    (distance_km_list [0] [0] [0] [1]).length = 1 ∧
    (distance_km_list [0] [0] [0] [1])[0]? = some (round2 (haversine 0 0 0 1)) ∧
    round2 (haversine 0 0 0 1) = 111.19 := by
  obtain ⟨hl, hi, hc⟩ := C3_distance_computation [0] [0] [0] [1] 1 rfl rfl rfl rfl
  exact ⟨hl, hi 0 0 0 0 1 rfl rfl rfl rfl, hc⟩

/-- C7: for latitudes within [-90, 90] degrees the haversine distance lies
in [0, π·6371.0] km, and the rounded `distance_km` value is non-negative. -/
theorem C7_distance_range (lat1 lon1 lat2 lon2 : ℝ)
    (h1 : -90 ≤ lat1) (h2 : lat1 ≤ 90) (h3 : -90 ≤ lat2) (h4 : lat2 ≤ 90) :
    0 ≤ haversine lat1 lon1 lat2 lon2 ∧
    haversine lat1 lon1 lat2 lon2 ≤ π * 6371.0 ∧
    0 ≤ round2 (haversine lat1 lon1 lat2 lon2) := by
  obtain ⟨hl, hu⟩ := @haversine_range lat1 lon1 lat2 lon2 h1 h2 h3 h4
  exact ⟨hl, hu, round2_nonneg hl⟩

/-- C7 witness: the range bound instantiated at origin (0,0) and
destination (0,1). -/
theorem C7_witness :
    0 ≤ haversine 0 0 0 1 ∧ haversine 0 0 0 1 ≤ π * 6371.0 ∧
    0 ≤ round2 (haversine 0 0 0 1) :=
  C7_distance_range 0 0 0 1 (by norm_num) (by norm_num) (by norm_num) (by norm_num)

/-- C1 (amended): the assembler produces one restaurant node entry per
record — the source applies no deduplication — one delivery node per record
and one edge per record; for the 3 records sharing one restaurant
coordinate and name it yields 3 identical restaurant entries, 3 delivery
nodes and 3 edges (flattened edge lists of length 9). -/
theorem C1_assembler_counts :
    (∀ rs : List AnnotatedRecord,
      (restaurant_data rs).length = rs.length ∧
      (delivery_data rs).length = rs.length ∧
      (edge_lat rs).length = 3 * rs.length ∧
      (edge_lon rs).length = 3 * rs.length) ∧
    restaurant_data exC1 = [⟨5, 6, "R", "Z"⟩, ⟨5, 6, "R", "Z"⟩, ⟨5, 6, "R", "Z"⟩] ∧
    (delivery_data exC1).length = 3 ∧
    (edge_lat exC1).length = 9 ∧ (edge_lon exC1).length = 9 := by
  refine ⟨fun rs => ⟨?_, ?_, ?_, ?_⟩, by decide, by decide, by decide, by decide⟩
  · simp [restaurant_data]
  · simp [delivery_data]
  · exact edgeFlat_length _ _ rs
  · exact edgeFlat_length _ _ rs

/-- C1 counterexample: the three records of `exC1` share a single
(latitude, longitude, name) triple, yet the assembled restaurant node list
has three entries, not one as claimed. -/
theorem C1_counterexample :
    (exC1.map (fun r => (r.base.Latitude, r.base.Longitude, r.base.Name))).dedup.length = 1 ∧
    (restaurant_data exC1).length ≠ 1 := by
  exact ⟨by decide, by decide⟩

/-- C2 (amended): the map center point equals the arithmetic mean of the
restaurant latitudes and longitudes taken over all records; since the
restaurant node list is not deduplicated, distinct restaurants are weighted
by their record multiplicity rather than equally. -/
theorem C2_center_mean (rs : List AnnotatedRecord) (h : 0 < rs.length) :
    center_lat rs = (rs.map (fun r => r.base.Latitude)).sum / (rs.length : ℚ) ∧
    center_lon rs = (rs.map (fun r => r.base.Longitude)).sum / (rs.length : ℚ) := by
  constructor
  · unfold center_lat restaurant_data
    rw [List.map_map, List.length_map]
    rfl
  · unfold center_lon restaurant_data
    rw [List.map_map, List.length_map]
    rfl

/-- C2 witness: the mean formula instantiated at the three-record input with
two distinct restaurants. -/
theorem C2_witness :
    center_lat exC2 = (exC2.map (fun r => r.base.Latitude)).sum / (exC2.length : ℚ) ∧
    center_lon exC2 = (exC2.map (fun r => r.base.Longitude)).sum / (exC2.length : ℚ) :=
  C2_center_mean exC2 (by decide)

/-- C2 counterexample: with two distinct restaurants of unequal record
multiplicities (latitude 0 twice, latitude 3 once) the code's center
latitude is 1 while the mean over the deduplicated restaurant node set is
3/2. -/
theorem C2_counterexample : center_lat exC2 ≠ center_lat_spec exC2 := by
  norm_num [center_lat, center_lat_spec, restaurant_data, restaurant_nodes_spec,
    exC2, List.dedup, List.sum_cons]

/-- C4: the trend aggregation produces one (calendar_date, count) pair per
distinct parseable date (unparseable dates excluded), ordered by date
ascending, each count counting the records with that date, and the counts
sum to the number of records with parseable dates; records dated
2024-01-01 (twice) and 2024-01-02 (once) yield
[(2024-01-01, 2), (2024-01-02, 1)]. -/
theorem C4_daily_orders :
    (∀ (parse : String → Option (Int × Nat)) (rs : List AnnotatedRecord),
      List.Sorted (· ≤ ·) ((daily_orders parse rs).map Prod.fst) ∧
      ((daily_orders parse rs).map Prod.fst).Nodup ∧
      (∀ d : Int, d ∈ (daily_orders parse rs).map Prod.fst ↔ d ∈ parsedDates parse rs) ∧
      (∀ p : Int × Nat, p ∈ daily_orders parse rs →
        p.2 = (parsedDates parse rs).count p.1) ∧
      ((daily_orders parse rs).map Prod.snd).sum = (parsedDates parse rs).length) ∧
    daily_orders exParse exC1 = [(20240101, 2), (20240102, 1)] := by
  refine ⟨fun parse rs => ?_, by decide⟩
  have hperm : (List.insertionSort (· ≤ ·) (parsedDates parse rs).dedup).Perm
      (parsedDates parse rs).dedup := List.perm_insertionSort _ _
  have hkeys : (daily_orders parse rs).map Prod.fst =
      List.insertionSort (· ≤ ·) (parsedDates parse rs).dedup := by
    unfold daily_orders
    rw [List.map_map]
    rw [show (Prod.fst ∘ fun d : Int => (d, (parsedDates parse rs).count d)) = id from rfl]
    exact List.map_id _
  refine ⟨?_, ?_, ?_, ?_, ?_⟩
  · rw [hkeys]
    exact List.sorted_insertionSort _ _
  · rw [hkeys]
    exact hperm.nodup_iff.mpr (List.nodup_dedup _)
  · intro d
    rw [hkeys, hperm.mem_iff, List.mem_dedup]
  · intro p hp
    unfold daily_orders at hp
    obtain ⟨d, hd, hpd⟩ := List.mem_map.mp hp
    rw [← hpd]
  · unfold daily_orders
    rw [List.map_map]
    have hsnd : (Prod.snd ∘ fun d => (d, (parsedDates parse rs).count d)) =
        fun d => (parsedDates parse rs).count d := rfl
    rw [hsnd]
    calc ((List.insertionSort (· ≤ ·) (parsedDates parse rs).dedup).map
          fun d => (parsedDates parse rs).count d).sum
        = ((parsedDates parse rs).dedup.map
            fun d => (parsedDates parse rs).count d).sum := (hperm.map _).sum_eq
      _ = (parsedDates parse rs).length := sum_count_dedup _

/-- C4 witness: the aggregation facts evaluated at the concrete two-date
scenario, with the per-pair count fact discharged at the pair
(2024-01-01, 2). -/
theorem C4_witness :
    daily_orders exParse exC1 = [(20240101, 2), (20240102, 1)] ∧
    ((daily_orders exParse exC1).map Prod.snd).sum = (parsedDates exParse exC1).length ∧
    ((20240101, 2) : Int × Nat).2 = (parsedDates exParse exC1).count 20240101 :=
  ⟨C4_daily_orders.2, (C4_daily_orders.1 exParse exC1).2.2.2.2,
    (C4_daily_orders.1 exParse exC1).2.2.2.1 (20240101, 2) (by decide)⟩

theorem list_isEmpty_iff {α : Type} (l : List α) : l.isEmpty = true ↔ l = [] := by
  cases l <;> simp

theorem daily_orders_eq_nil_iff (parse : String → Option (Int × Nat))
    (rs : List AnnotatedRecord) :
    daily_orders parse rs = [] ↔ parsedDates parse rs = [] := by
  unfold daily_orders
  constructor
  · intro h
    have h2 : (parsedDates parse rs).dedup = [] := by
      have hp := List.perm_insertionSort (· ≤ ·) (parsedDates parse rs).dedup
      rw [List.map_eq_nil_iff] at h
      rw [h] at hp
      exact hp.symm.eq_nil
    exact (List.dedup_eq_nil _).mp h2
  · intro h
    rw [h]
    rfl

/-- C5: the reported average daily order count equals the sum of the
per-date counts divided by the number of distinct parseable dates when at
least one record has a parseable date, and equals 0 (a plain value, not an
error) when no record has a parseable date. -/
theorem C5_avg_daily_orders (parse : String → Option (Int × Nat))
    (rs : List AnnotatedRecord) :
    (parsedDates parse rs = [] → avg_daily_orders parse rs = 0) ∧
    (parsedDates parse rs ≠ [] →
      avg_daily_orders parse rs =
        ((daily_orders parse rs).map (fun p => (p.2 : ℚ))).sum /
          ((parsedDates parse rs).dedup.length : ℚ)) := by
  have hlen : (daily_orders parse rs).length = (parsedDates parse rs).dedup.length := by
    unfold daily_orders
    rw [List.length_map, (List.perm_insertionSort _ _).length_eq]
  constructor
  · intro h
    have hb : (daily_orders parse rs).isEmpty = true := by
      rw [list_isEmpty_iff]
      exact (daily_orders_eq_nil_iff parse rs).mpr h
    unfold avg_daily_orders
    rw [if_pos hb]
  · intro h
    have hb : ¬ (daily_orders parse rs).isEmpty = true := by
      rw [list_isEmpty_iff]
      intro hcontra
      exact h ((daily_orders_eq_nil_iff parse rs).mp hcontra)
    unfold avg_daily_orders
    rw [if_neg hb, hlen]

/-- C5 witness: the zero case at a record set whose only date is malformed,
and the mean formula at the concrete two-date scenario. -/
theorem C5_witness :
    avg_daily_orders exParse exBadDates = 0 ∧
    avg_daily_orders exParse exC1 =
      ((daily_orders exParse exC1).map (fun p => (p.2 : ℚ))).sum /
        ((parsedDates exParse exC1).dedup.length : ℚ) :=
  ⟨(C5_avg_daily_orders exParse exBadDates).1 (by decide),
    (C5_avg_daily_orders exParse exC1).2 (by decide)⟩

/-- C6: when the zone+restaurant selection yields no records the handler
renders the no-data warning and nothing else: no distance computation, no
network assembly and no trend aggregation appears in the output. -/
theorem C6_empty_warning (parse : String → Option (Int × Nat))
    (df : List JoinedRecord) (zone rest : String)
    (h : filtered_df df zone rest = []) :
    show_relation parse df zone rest =
      RelationView.warning "No data available for the selected filters." := by
  unfold show_relation
  rw [if_pos (show (filtered_df df zone rest).isEmpty = true by rw [h]; rfl)]

/-- C6 witness: a selection matching no record renders the warning. -/
theorem C6_witness :
    show_relation exParse exDf "Z" "S" =
      RelationView.warning "No data available for the selected filters." :=
  C6_empty_warning exParse exDf "Z" "S" (by decide)

/-- C9: any restaurant name drawn from the options enumerated for a zone
(the distinct names occurring in the zone's records) filters to a non-empty
record set, so the no-data warning branch is unreachable for enumerated
options. -/
theorem C9_options_filter_nonempty (df : List JoinedRecord) (zone rest : String)
    (h : rest ∈ restaurants_in_zone df zone) :
    filtered_df df zone rest ≠ [] := by
  unfold restaurants_in_zone at h
  rw [(List.perm_insertionSort _ _).mem_iff, List.mem_dedup] at h
  obtain ⟨r, hr, hname⟩ := List.mem_map.mp h
  obtain ⟨hdf, hzone⟩ := List.mem_filter.mp hr
  apply List.ne_nil_of_mem
  refine List.mem_filter.mpr ⟨hdf, ?_⟩
  simp only [beq_iff_eq] at hzone
  simp only [Bool.and_eq_true, beq_iff_eq]
  exact ⟨hzone, hname⟩

/-- C9 witness: the option "R" enumerated for zone "Z" filters to a
non-empty record set. -/
theorem C9_witness : filtered_df exDf "Z" "R" ≠ [] :=
  C9_options_filter_nonempty exDf "Z" "R" (by decide)

/-- C10: the assembler preserves record order — the i-th delivery node
carries record i's delivery coordinates, order id, order date and distance,
and the i-th edge joins record i's restaurant coordinate to its delivery
coordinate; the flattened edge lists have length 3N with a separator after
each pair. -/
theorem C10_order_preserved (rs : List AnnotatedRecord) (i : Nat)
    (r : AnnotatedRecord) (h : rs[i]? = some r) :
    (delivery_data rs).length = rs.length ∧
    (edge_lat rs).length = 3 * rs.length ∧
    (edge_lon rs).length = 3 * rs.length ∧
    (delivery_data rs)[i]? = some ⟨r.base.DeliveryLat, r.base.DeliveryLong,
      r.base.OrderId, r.base.order_date, r.distance_km⟩ ∧
    (edge_lat rs)[3 * i]? = some (some r.base.Latitude) ∧
    (edge_lat rs)[3 * i + 1]? = some (some r.base.DeliveryLat) ∧
    (edge_lat rs)[3 * i + 2]? = some none ∧
    (edge_lon rs)[3 * i]? = some (some r.base.Longitude) ∧
    (edge_lon rs)[3 * i + 1]? = some (some r.base.DeliveryLong) ∧
    (edge_lon rs)[3 * i + 2]? = some none := by
  obtain ⟨la0, la1, la2⟩ :=
    edgeFlat_getElem? (fun s => s.base.Latitude) (fun s => s.base.DeliveryLat) rs i r h
  obtain ⟨lo0, lo1, lo2⟩ :=
    edgeFlat_getElem? (fun s => s.base.Longitude) (fun s => s.base.DeliveryLong) rs i r h
  refine ⟨by simp [delivery_data], edgeFlat_length _ _ rs, edgeFlat_length _ _ rs,
    ?_, la0, la1, la2, lo0, lo1, lo2⟩
  unfold delivery_data
  rw [List.getElem?_map, h]
  rfl

/-- C10 witness: record order preservation instantiated at index 1 of the
three-record input. -/
theorem C10_witness :
    (delivery_data exC1).length = exC1.length ∧
    (edge_lat exC1).length = 3 * exC1.length ∧
    (edge_lon exC1).length = 3 * exC1.length ∧
    (delivery_data exC1)[1]? = some ⟨12, 13, 2, "2024-01-01", 2⟩ ∧
    (edge_lat exC1)[3 * 1]? = some (some 5) ∧
    (edge_lat exC1)[3 * 1 + 1]? = some (some 12) ∧
    (edge_lat exC1)[3 * 1 + 2]? = some none ∧
    (edge_lon exC1)[3 * 1]? = some (some 6) ∧
    (edge_lon exC1)[3 * 1 + 1]? = some (some 13) ∧
    (edge_lon exC1)[3 * 1 + 2]? = some none :=
  C10_order_preserved exC1 1 ⟨⟨2, "2024-01-01", 12, 13, "R", "Z", "R", 5, 6⟩, 2⟩ rfl

end RestaurantDelivery
